import Mathlib

/-!
Verification development for the lessllm gateway.

Shallow embedding of the request-pipeline core: token counting
(`lessllm/utils/token_counter.py`), the cache estimator
(`lessllm-0.2.0/lessllm/monitoring/cache_estimator.py`), the performance
tracker (`lessllm/monitoring/performance.py`), the dialect translators and
pipeline glue (`lessllm/server.py`, `lessllm/providers/claude.py`), the log
models (`lessllm/logging/models.py`) and the cost tables
(`lessllm/utils/cost_calculator.py`, `lessllm-0.2.0/lessllm/providers/openai.py`).

Numeric conventions: Python floats are modelled as exact rationals; Python
`int(x)` is truncation toward zero; Python `round(x, n)` is round-half-to-even
at `n` decimal digits.  Python strings are Lean `String`; character classes of
the regexes involved are modelled for the ASCII plus CJK ranges the code
distinguishes.
-/

namespace LessLLM

/-- Floor of a rational, computed as the floor-division of the numerator by
the (positive) denominator. -/
def ratFloor (q : ℚ) : ℤ :=
  q.num.fdiv q.den

/-- Python `int(q)`: truncation toward zero, the numerator-by-denominator
quotient of the reduced fraction. -/
def pyTrunc (q : ℚ) : ℤ :=
  q.num.tdiv q.den

/-- Round-half-to-even to the nearest integer, the semantics of Python
`round`.  With `f = ⌊x⌋`, the fractional part `x - f` is compared against
one half by comparing `2 * (num - f * den)` with `den`. -/
def halfEvenRound (x : ℚ) : ℤ :=
  let f : ℤ := ratFloor x
  let twiceFrac : ℤ := 2 * (x.num - f * x.den)
  if twiceFrac < x.den then f
  else if (x.den : ℤ) < twiceFrac then f + 1
  else if f % 2 = 0 then f else f + 1

/-- Python `round(x, d)` on exact rationals. -/
def pyRoundTo (d : Nat) (x : ℚ) : ℚ :=
  (halfEvenRound (x * (10 : ℚ) ^ d) : ℚ) / (10 : ℚ) ^ d

/- ## Token counter (`lessllm/utils/token_counter.py`, `count_tokens`) -/

/-- CJK unified ideograph range used by `token_counter.py` (`[一-鿿]`). -/
def isCJK (c : Char) : Bool :=
  0x4e00 ≤ c.toNat && c.toNat ≤ 0x9fff

/-- Python regex `\w` for the character ranges the code distinguishes
(ASCII alphanumerics, underscore, CJK ideographs). -/
def isWordChar (c : Char) : Bool :=
  c.isAlphanum || c == '_' || isCJK c

/-- Python regex `\s` (ASCII whitespace range). -/
def isPySpace (c : Char) : Bool :=
  c == ' ' || c == '\t' || c == '\n' || c == '\r' || c.toNat == 11 || c.toNat == 12

/-- Whether the first character list is a prefix of the second. -/
def charsStartWith : List Char → List Char → Bool
  | [], _ => true
  | _ :: _, [] => false
  | p :: ps, c :: cs => p == c && charsStartWith ps cs

/-- Python `s.startswith(pre)`. -/
def pyStartsWith (s pre : String) : Bool :=
  charsStartWith pre.toList s.toList

/-- Python `s.lower()` (ASCII case mapping). -/
def toLowerStr (s : String) : String :=
  String.mk (s.toList.map Char.toLower)

/-- Number of matches of `\w+|[^\w\s]` in a character list: maximal word-char
runs count once, each other non-space character counts once.  Implemented as a
left fold whose boolean tracks being inside a word run. -/
def countRegexTokens (cs : List Char) : Nat :=
  (cs.foldl
    (fun (acc : Nat × Bool) c =>
      if isWordChar c then (if acc.2 then acc else (acc.1 + 1, true))
      else if isPySpace c then (acc.1, false)
      else (acc.1 + 1, false))
    (0, false)).1

/-- `count_tokens(text, model)`:
`len(re.findall(r'\w+|[^\w\s]', text)) + len(re.findall(r'[一-鿿]', text))`,
then a per-model adjustment (`gpt-4` unchanged, `claude` scaled by 0.95 and
truncated, anything else unchanged). -/
def countTokensWithModel (model : String) (text : String) : Nat :=
  if text = "" then 0
  else
    let base := countRegexTokens text.toList + (text.toList.filter isCJK).length
    if pyStartsWith model "gpt-4" then base
    else if pyStartsWith model "claude" then (base * 95) / 100
    else base

/-- `count_tokens` at its default model `"gpt-3.5-turbo"`, the way every call
inside the cache estimator invokes it. -/
def countTokens (text : String) : Nat :=
  countTokensWithModel "gpt-3.5-turbo" text

/- ## Cache estimator (`lessllm-0.2.0/lessllm/monitoring/cache_estimator.py`) -/

/-- One item of a list-valued message content.  The estimator only reads
dict items whose `"type"` is `"text"`; everything else is opaque. -/
inductive ContentPart where
  | text (s : String)
  | other
deriving DecidableEq

/-- A message `content` value: a plain string, a multimodal list, or any
other JSON value (which every branch of the estimator skips). -/
inductive MsgContent where
  | str (s : String)
  | parts (ps : List ContentPart)
  | other
deriving DecidableEq

/-- A chat message as the estimator reads it: `role` and `content`. -/
structure Msg where
  role : String
  content : MsgContent
deriving DecidableEq

/-- `_count_messages_tokens`: sum of `count_tokens` over string contents and
over the text items of list contents. -/
def countMessagesTokens (messages : List Msg) : Nat :=
  messages.foldl
    (fun total msg =>
      match msg.content with
      | .str s => total + countTokens s
      | .parts ps =>
          total + ps.foldl
            (fun t p => match p with | .text s => t + countTokens s | .other => t) 0
      | .other => total)
    0

/-- `_analyze_system_messages`: the process-local seen-set is modelled as the
list of previously seen system-message contents (the MD5 hash is injective in
the model).  Returns the cached-token count and the updated set. -/
def analyzeSystemMessages (seen : List String) (messages : List Msg) :
    Nat × List String :=
  messages.foldl
    (fun (acc : Nat × List String) msg =>
      if msg.role == "system" then
        match msg.content with
        | .str s =>
            if acc.2.contains s then (acc.1 + countTokens s, acc.2)
            else (acc.1, acc.2 ++ [s])
        | _ => acc
      else acc)
    (0, seen)

/-- An element of one of the estimator's template regexes: a literal, or a
capturing group over literal alternatives.  All ten patterns in
`template_patterns` have this shape. -/
structure PatElem where
  isGroup : Bool
  alts : List String

/-- Case-insensitive (ASCII) prefix match of pattern characters against text
characters; returns the matched original-case segment and the rest. -/
def stripPrefixCI : List Char → List Char → Option (List Char × List Char)
  | [], cs => some ([], cs)
  | _ :: _, [] => none
  | p :: ps, c :: cs =>
      if p.toLower == c.toLower then
        (stripPrefixCI ps cs).map (fun mr => (c :: mr.1, mr.2))
      else none

/-- All full literal expansions of a pattern, in regex preference order
(earlier elements vary slowest, matching the `re` engine's backtracking over
alternations of literals).  Each expansion lists its pieces with their
group flag. -/
def expandPattern : List PatElem → List (List (Bool × String))
  | [] => [[]]
  | e :: es =>
      let rests := expandPattern es
      (e.alts.map (fun a => rests.map (fun rest => (e.isGroup, a) :: rest))).flatten

/-- Match one fully expanded alternative at the head of the text, returning
the capture-group strings (original case, from the text) and the rest. -/
def matchCombo : List (Bool × String) → List Char → Option (List String × List Char)
  | [], cs => some ([], cs)
  | p :: ps, cs =>
      match stripPrefixCI p.2.toList cs with
      | some (seg, rest) =>
          match matchCombo ps rest with
          | some (caps, rest2) =>
              some ((if p.1 then [String.mk seg] else []) ++ caps, rest2)
          | none => none
      | none => none

/-- Match a pattern at the head of the text: try its literal expansions in
preference order.  For patterns that are sequences of literals and
alternations of literals — all ten `template_patterns` — this is exactly the
`re` engine's backtracking match, including which alternative each group
captures. -/
def matchSeq (pat : List PatElem) (cs : List Char) :
    Option (List String × List Char) :=
  (expandPattern pat).findSome? (fun combo => matchCombo combo cs)

/-- `re.findall`: scan left to right, non-overlapping; on a match record the
full matched text and the captures and continue after it, else advance one
character.  The fuel argument bounds the scan; every pattern in
`template_patterns` consumes at least one character per match, so
`fuel = length + 1` reproduces the scan exactly. -/
def findAllAux (pat : List PatElem) : Nat → List Char → List (String × List String)
  | 0, _ => []
  | fuel + 1, cs =>
      match matchSeq pat cs with
      | some (caps, rest) =>
          (String.mk (cs.take (cs.length - rest.length)), caps) ::
            findAllAux pat fuel rest
      | none =>
          match cs with
          | [] => []
          | _ :: tail => findAllAux pat fuel tail

/-- `re.findall(pattern, content, re.IGNORECASE)` over a whole string. -/
def findAll (pat : List PatElem) (content : String) : List (String × List String) :=
  findAllAux pat (content.length + 1) content.toList

/-- A literal pattern element. -/
def lit (s : String) : PatElem := ⟨false, [s]⟩

/-- A capturing-group element over alternatives. -/
def grp (alts : List String) : PatElem := ⟨true, alts⟩

/-- `template_patterns`, in order.  Parenthesised alternations of the Python
regexes are `grp` elements; everything else is literal text. -/
def templatePatterns : List (List PatElem) :=
  [ [lit "You are a helpful assistant"],
    [lit "Please ", grp ["analyze", "review", "explain", "summarize"]],
    [lit "Based on the following ", grp ["context", "information", "data"]],
    [lit "Act as a ", grp ["professional", "expert", "senior"]],
    [lit "Given the ", grp ["following", "above"], lit " ",
      grp ["code", "text", "document"]],
    [lit "Here is ", grp ["the", "a"], lit " ",
      grp ["code", "function", "class", "file"]],
    [lit "Can you help me ", grp ["with", "to"]],
    [lit "I need ", grp ["help", "assistance"], lit " ", grp ["with", "for"]],
    [lit "What ", grp ["is", "are", "would be"], lit " the"],
    [lit "How ", grp ["do", "can", "should"], lit " ", grp ["I", "you", "we"]] ]

/-- Number of capturing groups of a pattern.  `re.findall` returns full-match
strings for zero groups, group strings for one group, and tuples for two or
more — and `" ".join` over tuples raises `TypeError`. -/
def groupCount (pat : List PatElem) : Nat :=
  (pat.filter (·.isGroup)).length

/-- The `matched_text = " ".join(matches)` step of `_analyze_templates`:
`none` models the `TypeError` raised when the matched pattern has two or more
capturing groups, so that `findall` produced tuples. -/
def joinedMatches (pat : List PatElem) (ms : List (String × List String)) :
    Option String :=
  if groupCount pat ≥ 2 then none
  else if groupCount pat = 1 then
    some (String.intercalate " " (ms.map (fun m => m.2.headD "")))
  else
    some (String.intercalate " " (ms.map (·.1)))

/-- The per-message body of `_analyze_templates`: the first pattern with a
non-empty `findall` contributes
`min(count_tokens(matched_text), count_tokens(content) // 4)`; `none` models
the `TypeError` crash on a two-group pattern. -/
def templateContribution (content : String) : List (List PatElem) → Option Nat
  | [] => some 0
  | pat :: rest =>
      match findAll pat content with
      | [] => templateContribution content rest
      | ms =>
          match joinedMatches pat ms with
          | none => none
          | some t => some (min (countTokens t) (countTokens content / 4))

/-- `_analyze_templates` over the message list; `none` propagates the crash. -/
def analyzeTemplates (messages : List Msg) : Option Nat :=
  messages.foldl
    (fun acc msg =>
      match acc with
      | none => none
      | some n =>
          match msg.content with
          | .str s => (templateContribution s templatePatterns).map (n + ·)
          | _ => some n)
    (some 0)

/-- Accumulating splitter behind `splitWhitespace`: cut at every whitespace
character. -/
def splitWsAux : List Char → List Char → List String
  | [], acc => [String.mk acc.reverse]
  | c :: cs, acc =>
      if isPySpace c then String.mk acc.reverse :: splitWsAux cs []
      else splitWsAux cs (c :: acc)

/-- Python `str.split()`: split on whitespace runs, dropping empty pieces. -/
def splitWhitespace (s : String) : List String :=
  (splitWsAux s.toList []).filter (· ≠ "")

/-- Consecutive word triples (the 3-grams of `_has_repetitive_patterns`;
the code joins them with single spaces, which is injective on
whitespace-free words, so triples are compared directly). -/
def threeGrams : List String → List (String × String × String)
  | a :: b :: c :: rest => (a, b, c) :: threeGrams (b :: c :: rest)
  | _ => []

/-- Whether some 3-gram occurs twice. -/
def hasDupTriple : List (String × String × String) → Bool
  | [] => false
  | x :: xs => xs.contains x || hasDupTriple xs

/-- `_has_repetitive_patterns`: lowercase, split on whitespace; `False` below
ten words, else look for a repeated consecutive 3-gram. -/
def hasRepetitivePatterns (content : String) : Bool :=
  let words := splitWhitespace (toLowerStr content)
  if words.length < 10 then false
  else hasDupTriple (threeGrams words)

/-- `_calculate_history_cache_probability` (its `total_messages` parameter is
accepted and unused, exactly as in the source).  `content` is the message's
string content. -/
def historyCacheProbability (role : String) (content : String)
    (_totalMessages : Nat) : ℚ :=
  let base : ℚ := if role == "system" then 8/10 else 3/10
  let base := if content.length < 100 then base + 2/10
              else if content.length < 500 then base + 1/10
              else base
  let base := if hasRepetitivePatterns content then base + 2/10 else base
  min 1 base

/-- `_analyze_conversation_history`: zero for two or fewer messages; else
every message but the last with string content contributes
`int(count_tokens(content) * probability)`. -/
def analyzeConversationHistory (messages : List Msg) : Nat :=
  if messages.length ≤ 2 then 0
  else
    messages.dropLast.foldl
      (fun acc msg =>
        match msg.content with
        | .str s =>
            acc + (pyTrunc ((countTokens s : ℚ) *
              historyCacheProbability msg.role s messages.length)).toNat
        | _ => acc)
      0

/-- The `CacheAnalysis` record of `lessllm/logging/models.py`. -/
structure CacheAnalysis where
  estimated_cached_tokens : Nat
  estimated_fresh_tokens : Nat
  estimated_cache_hit_rate : ℚ
  system_message_cached : Nat
  template_cached : Nat
  conversation_history_cached : Nat
deriving DecidableEq

/-- The all-zero `CacheAnalysis()` default. -/
def CacheAnalysis.zero : CacheAnalysis := ⟨0, 0, 0, 0, 0, 0⟩

/-- `estimate_cache_tokens`, with the seen-system-message set passed
explicitly.  `none` models the `TypeError` escaping from
`_analyze_templates`; on that path the Python call raises and produces no
`CacheAnalysis` (the partially mutated seen-set is irrelevant to callers that
crashed, so it is not returned). -/
def estimateCacheTokens (seen : List String) (messages : List Msg) :
    Option (CacheAnalysis × List String) :=
  if messages = [] then some (CacheAnalysis.zero, seen)
  else
    let total := countMessagesTokens messages
    let sysR := analyzeSystemMessages seen messages
    match analyzeTemplates messages with
    | none => none
    | some tmpl =>
        let hist := analyzeConversationHistory messages
        let cached := min total (sysR.1 + tmpl + hist)
        let fresh := total - cached
        some
          ({ estimated_cached_tokens := cached,
             estimated_fresh_tokens := fresh,
             estimated_cache_hit_rate :=
               if 0 < total then (cached : ℚ) / (total : ℚ) else 0,
             system_message_cached := sysR.1,
             template_cached := tmpl,
             conversation_history_cached := hist }, sysR.2)

/- ## Performance tracker (`lessllm/monitoring/performance.py`) -/

/-- The `PerformanceAnalysis` data model (`lessllm/logging/models.py`):
millisecond fields are integers, `tpot_ms` and `tokens_per_second` are
floats, here exact rationals. -/
structure PerformanceAnalysis where
  ttft_ms : Option ℤ
  tpot_ms : Option ℚ
  total_latency_ms : ℤ
  tokens_per_second : Option ℚ
deriving DecidableEq

/-- The mutable state of a `PerformanceTracker`; timestamps are seconds as
exact rationals. -/
structure TrackerState where
  request_start : Option ℚ
  first_token_time : Option ℚ
  token_timestamps : List ℚ
deriving DecidableEq

/-- `PerformanceTracker.calculate_metrics(output_tokens)` evaluated at wall
time `now`; `none` models the `ValueError` when `request_start` is unset.
The `total_latency` line is transcribed with Python's precedence: the
conditional expression is
`token_timestamps[-1] if token_timestamps else (time.time() - request_start)`
and only its result is multiplied by 1000. -/
def calculateMetrics (st : TrackerState) (now : ℚ) (outputTokens : Nat) :
    Option PerformanceAnalysis :=
  match st.request_start with
  | none => none
  | some rs =>
    match st.first_token_time with
    | none =>
        some { ttft_ms := none, tpot_ms := none,
               total_latency_ms := pyTrunc ((now - rs) * 1000),
               tokens_per_second := none }
    | some ft =>
        let ttft := (ft - rs) * 1000
        let tpotPair : Option ℚ × Option ℚ :=
          if 1 < st.token_timestamps.length ∧ 0 < outputTokens then
            let generationTime := st.token_timestamps.getLastD 0 - ft
            if 0 < generationTime then
              (some ((generationTime * 1000) / (outputTokens : ℚ)),
               some ((outputTokens : ℚ) / generationTime))
            else (none, none)
          else (none, none)
        let totalLatency :=
          pyTrunc ((if st.token_timestamps ≠ [] then st.token_timestamps.getLastD 0
                    else now - rs) * 1000)
        some { ttft_ms := some (pyTrunc ttft),
               tpot_ms :=
                 match tpotPair.1 with
                 | some v => if v = 0 then none else some (pyRoundTo 2 v)
                 | none => none,
               total_latency_ms := totalLatency,
               tokens_per_second :=
                 match tpotPair.2 with
                 | some v => if v = 0 then none else some (pyRoundTo 2 v)
                 | none => none }

/-- `PerformanceTracker.calculate_non_streaming_metrics` at wall time `now`. -/
def calculateNonStreamingMetrics (st : TrackerState) (now : ℚ) :
    Option PerformanceAnalysis :=
  match st.request_start with
  | none => none
  | some rs =>
      let totalLatency := pyTrunc ((now - rs) * 1000)
      some { ttft_ms := some totalLatency, tpot_ms := none,
             total_latency_ms := totalLatency, tokens_per_second := none }

/- ## Claude provider translators (`lessllm/providers/claude.py`) -/

/-- A chat message as the dialect translators read it: a `role` and a string
`content` (`_convert_to_claude_format` copies the content value verbatim). -/
structure ChatMsg where
  role : String
  content : String
deriving DecidableEq

/-- An OpenAI chat-completions request, the input of
`_convert_to_claude_format`. -/
structure OAIRequest where
  model : String
  max_tokens : Option Nat
  temperature : Option ℚ
  top_p : Option ℚ
  messages : List ChatMsg
deriving DecidableEq

/-- An Anthropic messages request, the output of
`_convert_to_claude_format`. -/
structure ClaudeRequest where
  model : String
  max_tokens : Nat
  messages : List ChatMsg
  system : Option String
  temperature : Option ℚ
  top_p : Option ℚ
deriving DecidableEq

/-- `ClaudeProvider._convert_to_claude_format`: non-system messages are
appended in order; each system message overwrites the `system_message` local;
the final value is attached as `system` only when truthy (non-empty). -/
def convertToClaudeFormat (r : OAIRequest) : ClaudeRequest :=
  let systemMessage :=
    r.messages.foldl
      (fun acc m => if m.role == "system" then some m.content else acc) none
  { model := r.model,
    max_tokens := r.max_tokens.getD 1000,
    messages := r.messages.filter (fun m => ¬(m.role == "system")),
    system :=
      match systemMessage with
      | some s => if s = "" then none else some s
      | none => none,
    temperature := r.temperature,
    top_p := r.top_p }

/-- A content block of an Anthropic response as `normalize_response` reads
it: `response["content"][0]["text"]`. -/
structure TextBlock where
  text : String
deriving DecidableEq

/-- An Anthropic non-streaming response; `Option` fields model key
presence (`"content" not in response` short-circuits the conversion). -/
structure ClaudeResponse where
  id : Option String
  model : Option String
  content : Option (List TextBlock)
  stop_reason : Option String
  usage : Option (Option ℤ × Option ℤ)
deriving DecidableEq

/-- The usage block of a normalized OpenAI-shape response. -/
structure OAIUsage where
  prompt_tokens : ℤ
  completion_tokens : ℤ
  total_tokens : ℤ
deriving DecidableEq

/-- One choice of a normalized OpenAI-shape response. -/
structure OAIChoice where
  index : Nat
  message : ChatMsg
  finish_reason : Option String
deriving DecidableEq

/-- A normalized OpenAI-shape non-streaming response. -/
structure OAIResponse where
  id : String
  object : String
  created : Nat
  model : String
  choices : List OAIChoice
  usage : Option OAIUsage
deriving DecidableEq

/-- `ClaudeProvider.normalize_response`: `none` is the early
`return response` when the `content` key is absent; otherwise the OpenAI
shape is built, with `finish_reason` equal to `"stop"` when `stop_reason`
is `"end_turn"` and the raw `stop_reason` value in every other case. -/
def normalizeResponse (r : ClaudeResponse) : Option OAIResponse :=
  match r.content with
  | none => none
  | some blocks =>
      some
        { id := r.id.getD "",
          object := "chat.completion",
          created := 0,
          model := r.model.getD "",
          choices :=
            [{ index := 0,
               message :=
                 { role := "assistant",
                   content := match blocks with | [] => "" | b :: _ => b.text },
               finish_reason :=
                 if r.stop_reason = some "end_turn" then some "stop"
                 else r.stop_reason }],
          usage :=
            r.usage.map (fun u =>
              { prompt_tokens := u.1.getD 0,
                completion_tokens := u.2.getD 0,
                total_tokens := u.1.getD 0 + u.2.getD 0 }) }

/- ## Server-side request conversion (`lessllm/server.py`) -/

/-- A message of an Anthropic-dialect client request as
`convert_claude_to_openai` reads it (string content, multimodal list, or
any other JSON value — the last is skipped by both `isinstance` branches). -/
structure ClaudeMsg where
  role : String
  content : MsgContent
deriving DecidableEq

/-- An Anthropic messages request at the `/v1/messages` endpoint; `Option`
fields model key presence (`"system" in claude_request` is a presence test). -/
structure ClaudeClientRequest where
  model : Option String
  max_tokens : Option Nat
  temperature : Option ℚ
  stream : Option Bool
  system : Option String
  messages : List ClaudeMsg
deriving DecidableEq

/-- The OpenAI-shape request built by `convert_claude_to_openai`. -/
structure OAIConvertedRequest where
  model : String
  messages : List ChatMsg
  max_tokens : Nat
  temperature : ℚ
  stream : Bool
deriving DecidableEq

/-- Per-message step of `convert_claude_to_openai`: string contents are
copied, list contents collapse to their text parts joined by single spaces,
any other content shape is dropped. -/
def convertClaudeMsg (m : ClaudeMsg) : Option ChatMsg :=
  match m.content with
  | .str s => some ⟨m.role, s⟩
  | .parts ps =>
      some ⟨m.role,
        String.intercalate " "
          (ps.filterMap (fun p => match p with | .text t => some t | .other => none))⟩
  | .other => none

/-- `convert_claude_to_openai` (`lessllm/server.py`): convert the messages,
then insert a leading system message whenever the `system` key is present. -/
def convertClaudeToOpenai (r : ClaudeClientRequest) : OAIConvertedRequest :=
  let converted := r.messages.filterMap convertClaudeMsg
  { model := r.model.getD "claude-3-5-sonnet-20241022",
    messages :=
      match r.system with
      | some s => ⟨"system", s⟩ :: converted
      | none => converted,
    max_tokens := r.max_tokens.getD 1000,
    temperature := r.temperature.getD 1,
    stream := r.stream.getD false }

/-- Data-flow trace of the non-streaming branch of
`handle_claude_to_openai_conversion`: the request sent upstream is the
converted one (line 374 then 403), and `handle_regular_request` hands
`request_data.get("messages", [])` of that converted request to
`cache_estimator.estimate_cache_tokens` (lines 691-693). -/
structure ConversionTrace where
  upstreamRequest : OAIConvertedRequest
  estimatorMessages : List ChatMsg
deriving DecidableEq

/-- The non-streaming path of `handle_claude_to_openai_conversion`, recorded
as a trace of which values flow where. -/
def handleClaudeToOpenaiTrace (r : ClaudeClientRequest) : ConversionTrace :=
  let openaiRequest := convertClaudeToOpenai r
  { upstreamRequest := openaiRequest,
    estimatorMessages := openaiRequest.messages }

/- ## Streaming chunk translators (`lessllm/server.py`) -/

/-- The delta object of an Anthropic streaming chunk; `Option` models key
presence. -/
structure ClaudeStreamDelta where
  type : Option String
  text : Option String
deriving DecidableEq

/-- An Anthropic-dialect streaming chunk (both upstream input and the
translated output live in this shape). -/
structure ClaudeStreamChunk where
  type : Option String
  index : Option Nat
  delta : Option ClaudeStreamDelta
deriving DecidableEq

/-- The `{"type": "ping"}` chunk. -/
def pingChunk : ClaudeStreamChunk := ⟨some "ping", none, none⟩

/-- The delta object of an OpenAI streaming chunk; `content` is `some v`
exactly when the `content` key is present (with string value `v`). -/
structure OAIStreamDelta where
  role : Option String
  content : Option String
deriving DecidableEq

/-- One choice of an OpenAI streaming chunk. -/
structure OAIStreamChoice where
  index : Option Nat
  delta : Option OAIStreamDelta
deriving DecidableEq

/-- An OpenAI-dialect streaming chunk; a missing `choices` key and an empty
list behave identically in both translators, so both are the empty list. -/
structure OAIStreamChunk where
  choices : List OAIStreamChoice
deriving DecidableEq

/-- `convert_claude_streaming_to_openai`: a `content_block_delta` whose delta
is a `text_delta` becomes an OpenAI chunk carrying `delta.get("text", "")`;
every other chunk returns `None` (suppressed by the `if openai_chunk:` guard
in the caller). -/
def convertClaudeStreamingToOpenai (c : ClaudeStreamChunk) :
    Option OAIStreamChunk :=
  if c.type = some "content_block_delta" then
    match c.delta with
    | some d =>
        if d.type = some "text_delta" then
          some ⟨[⟨some 0, some ⟨none, some (d.text.getD "")⟩⟩]⟩
        else none
    | none => none
  else none

/-- `convert_openai_streaming_to_claude`: when the first choice has a delta
with a `content` key, emit a `text_delta` carrying that value; in every other
case emit the ping chunk. -/
def convertOpenaiStreamingToClaude (c : OAIStreamChunk) : ClaudeStreamChunk :=
  match c.choices with
  | [] => pingChunk
  | choice :: _ =>
      match choice.delta with
      | some d =>
          match d.content with
          | some v =>
              ⟨some "content_block_delta", some 0,
               some ⟨some "text_delta", some v⟩⟩
          | none => pingChunk
      | none => pingChunk

/-- The text carried by an Anthropic streaming chunk: present exactly when
the chunk is a `content_block_delta` whose delta is a `text_delta`, in which
case it is `delta.get("text", "")`. -/
def claudeChunkText (c : ClaudeStreamChunk) : Option String :=
  if c.type = some "content_block_delta" then
    match c.delta with
    | some d => if d.type = some "text_delta" then some (d.text.getD "") else none
    | none => none
  else none

/-- The text carried by an OpenAI streaming chunk: the value of the first
choice's `delta.content` key when present. -/
def oaiChunkText (c : OAIStreamChunk) : Option String :=
  (c.choices.head?.bind (fun ch => ch.delta)).bind (fun d => d.content)

/- ## Log models and the failure path
     (`lessllm/logging/models.py`, `lessllm/server.py`) -/

/-- An opaque JSON object (request or response body); only emptiness and
identity matter to the embedded operations. -/
abbrev JsonObj : Type := List (String × String)

/-- A usage dictionary: keys mapped to integer-or-null values
(`Option ℤ`); a key may be present with value `None`. -/
abbrev UsageDict : Type := List (String × Option ℤ)

/-- `usage.get(k)`: `None` both when the key is absent and when it maps to
`None`. -/
def usageGet (u : UsageDict) (k : String) : Option ℤ :=
  match u.lookup k with
  | some v => v
  | none => none

/-- `k in usage`. -/
def usageHas (u : UsageDict) (k : String) : Bool :=
  (u.lookup k).isSome

/-- The `RawAPIData` model (`lessllm/logging/models.py`). -/
structure RawAPIData where
  raw_request : JsonObj
  request_headers : List (String × String)
  request_method : String
  request_url : String
  request_query_params : List (String × String)
  client_ip : Option String
  user_agent : Option String
  raw_response : JsonObj
  response_headers : List (String × String)
  response_status_code : Nat
  response_size_bytes : Option Nat
  extracted_usage : Option UsageDict
  extracted_cache_info : Option JsonObj
  extracted_performance : Option JsonObj
  upstream_request_headers : List (String × String)
  upstream_response_headers : List (String × String)
  upstream_url : Option String
  upstream_status_code : Option Nat
deriving DecidableEq

/-- `RawAPIData(raw_request=..., raw_response=...)`: every other field takes
its pydantic default, in particular `response_status_code = 200`. -/
def mkRawAPIData (req resp : JsonObj) : RawAPIData :=
  { raw_request := req,
    request_headers := [],
    request_method := "POST",
    request_url := "",
    request_query_params := [],
    client_ip := none,
    user_agent := none,
    raw_response := resp,
    response_headers := [],
    response_status_code := 200,
    response_size_bytes := none,
    extracted_usage := none,
    extracted_cache_info := none,
    extracted_performance := none,
    upstream_request_headers := [],
    upstream_response_headers := [],
    upstream_url := none,
    upstream_status_code := none }

/-- The `EstimatedAnalysis` model. -/
structure EstimatedAnalysis where
  estimated_performance : PerformanceAnalysis
  estimated_cache : CacheAnalysis
  estimated_cost_usd : Option ℚ
deriving DecidableEq

/-- The `APICallLog` model, with its derived key-field columns. -/
structure APICallLog where
  request_id : String
  provider : String
  model : String
  endpoint : String
  raw_data : RawAPIData
  estimated_analysis : EstimatedAnalysis
  success : Bool
  error_message : Option String
  proxy_used : Option String
  actual_prompt_tokens : Option ℤ
  actual_completion_tokens : Option ℤ
  actual_total_tokens : Option ℤ
deriving DecidableEq

/-- An upstream non-2xx outcome (`httpx.HTTPStatusError`): the status the
upstream returned and its error body. -/
structure UpstreamHTTPError where
  status : Nat
  body : String
deriving DecidableEq

/-- `str(e)` for the propagated upstream error.  Only its presence matters to
the log shape; the rendering models the provider's message. -/
def upstreamErrorMessage (e : UpstreamHTTPError) : String :=
  "API error: " ++ toString e.status

/-- The `except` branch of `handle_regular_request` (`lessllm/server.py`
lines 742-760): the failure `APICallLog` built when the upstream call raised
`e`.  The `RawAPIData` is constructed from the request and an empty response
dict only, so all response-side fields keep their defaults. -/
def regularRequestErrorLog (requestData : JsonObj) (requestId providerName : String)
    (e : UpstreamHTTPError) : APICallLog :=
  { request_id := requestId,
    provider := providerName,
    model := (requestData.lookup "model").getD "unknown",
    endpoint := "chat/completions",
    raw_data := mkRawAPIData requestData [],
    estimated_analysis :=
      { estimated_performance :=
          { ttft_ms := none, tpot_ms := none, total_latency_ms := 0,
            tokens_per_second := none },
        estimated_cache := CacheAnalysis.zero,
        estimated_cost_usd := none },
    success := false,
    error_message := some (upstreamErrorMessage e),
    proxy_used := none,
    actual_prompt_tokens := none,
    actual_completion_tokens := none,
    actual_total_tokens := none }

/-- `APICallLog.extract_key_fields`, usage part (lines 98-112): an
OpenAI-shape usage (`prompt_tokens` key present) copies all three fields
verbatim; a Claude-shape usage (`input_tokens` key present) copies prompt and
completion and computes the total only when both copies are truthy. -/
def extractKeyFields (usage : Option UsageDict) :
    Option ℤ × Option ℤ × Option ℤ :=
  match usage with
  | none => (none, none, none)
  | some u =>
      if usageHas u "prompt_tokens" then
        (usageGet u "prompt_tokens", usageGet u "completion_tokens",
         usageGet u "total_tokens")
      else if usageHas u "input_tokens" then
        let p := usageGet u "input_tokens"
        let c := usageGet u "output_tokens"
        (p, c,
          match p, c with
          | some a, some b => if a ≠ 0 ∧ b ≠ 0 then some (a + b) else none
          | _, _ => none)
      else (none, none, none)

/-- The usage-extraction step of `OpenAIProvider.parse_raw_response`
(`lessllm-0.2.0/lessllm/providers/openai.py` lines 110-115): when the
response has a `usage` key, re-emit its three OpenAI-shape entries (each
`None` when missing). -/
def openaiExtractUsage (responseUsage : Option UsageDict) : Option UsageDict :=
  responseUsage.map (fun ru =>
    [("prompt_tokens", usageGet ru "prompt_tokens"),
     ("completion_tokens", usageGet ru "completion_tokens"),
     ("total_tokens", usageGet ru "total_tokens")])

/- ## Cost tables (`lessllm-0.2.0/lessllm/providers/openai.py`,
     `lessllm/utils/cost_calculator.py`) -/

/-- `OpenAIProvider.pricing`: USD per 1K tokens, `(input, output)`. -/
def openaiProviderPricing : List (String × ℚ × ℚ) :=
  [ ("gpt-4", 3/100, 6/100),
    ("gpt-4-0613", 3/100, 6/100),
    ("gpt-4-32k", 6/100, 12/100),
    ("gpt-4-turbo", 1/100, 3/100),
    ("gpt-4-turbo-preview", 1/100, 3/100),
    ("gpt-3.5-turbo", 15/10000, 2/1000),
    ("gpt-3.5-turbo-0613", 15/10000, 2/1000),
    ("gpt-3.5-turbo-16k", 3/1000, 4/1000) ]

/-- The Claude block of `MODEL_PRICING` in `cost_calculator.py`. -/
def claudePricingEntries : List (String × ℚ × ℚ) :=
  [ ("claude-3-opus-20240229", 15/1000, 75/1000),
    ("claude-3-sonnet-20240229", 3/1000, 15/1000),
    ("claude-3-haiku-20240307", 25/100000, 125/100000),
    ("claude-2.1", 8/1000, 24/1000),
    ("claude-2.0", 8/1000, 24/1000) ]

/-- `MODEL_PRICING` (`lessllm/utils/cost_calculator.py`): the OpenAI entries
(identical to the provider's table) followed by the Claude entries. -/
def MODEL_PRICING : List (String × ℚ × ℚ) :=
  openaiProviderPricing ++ claudePricingEntries

/-- The shared cost formula
`(prompt_tokens / 1000) * input + (completion_tokens / 1000) * output`, with
`usage.get(k, 0)` defaults. -/
def costFormula (usage : UsageDict) (pricing : ℚ × ℚ) : ℚ :=
  ((usageGet usage "prompt_tokens").getD 0 : ℚ) / 1000 * pricing.1 +
    ((usageGet usage "completion_tokens").getD 0 : ℚ) / 1000 * pricing.2

/-- `OpenAIProvider.estimate_cost`: zero for models outside the provider's
own table, else the unrounded cost formula. -/
def openaiProviderEstimateCost (usage : UsageDict) (model : String) : ℚ :=
  match openaiProviderPricing.lookup model with
  | none => 0
  | some pricing => costFormula usage pricing

/-- `calculate_cost` (`lessllm/utils/cost_calculator.py`): zero for models
outside `MODEL_PRICING`, else the cost formula rounded to six decimals. -/
def calculate_cost (usage : UsageDict) (model : String) : ℚ :=
  match MODEL_PRICING.lookup model with
  | none => 0
  | some pricing => pyRoundTo 6 (costFormula usage pricing)

/- ## Helper lemmas -/

/-- A fold that overwrites its accumulator at every match returns the content
of the last matching element (the first in reverse order). -/
theorem foldl_overwrite_eq_find_reverse (msgs : List ChatMsg) (init : Option String) :
    msgs.foldl (fun acc m => if m.role == "system" then some m.content else acc) init =
      match msgs.reverse.find? (fun m => m.role == "system") with
      | some m => some m.content
      | none => init := by
  induction msgs using List.reverseRecOn with
  | nil => rfl
  | append_singleton l a ih =>
      rw [List.foldl_append, List.reverse_append]
      simp only [List.foldl_cons, List.foldl_nil, List.reverse_singleton,
        List.singleton_append, List.find?_cons]
      cases ha : (a.role == "system") with
      | true => simp only [ha, if_true]
      | false =>
          rw [if_neg (by simp [ha])]
          exact ih

/-- `List.lookup` distributes over append, preferring the left list. -/
theorem lookup_append {α : Type} (l1 l2 : List (String × α)) (k : String) :
    (l1 ++ l2).lookup k = ((l1.lookup k).or (l2.lookup k)) := by
  induction l1 with
  | nil => simp [List.lookup]
  | cons h t ih =>
      by_cases hk : (k == h.1) = true
      · simp [List.lookup, hk]
      · simp only [Bool.not_eq_true] at hk
        simp [List.lookup, hk, ih]

/-- Rounding zero gives zero. -/
theorem pyRoundTo_zero (d : Nat) : pyRoundTo d 0 = 0 := by
  unfold pyRoundTo
  rw [zero_mul]
  norm_num [halfEvenRound, ratFloor]

/-- Half-even rounding fixes integers. -/
theorem halfEvenRound_intCast (n : ℤ) : halfEvenRound (n : ℚ) = n := by
  unfold halfEvenRound ratFloor
  rw [Rat.num_intCast, Rat.den_intCast]
  norm_num [Int.fdiv_one]

/-- Python `round(x, d)` fixes integer values. -/
theorem pyRoundTo_intCast (d : Nat) (n : ℤ) : pyRoundTo d (n : ℚ) = n := by
  unfold pyRoundTo
  have h1 : ((n : ℚ) * (10 : ℚ) ^ d) = ((n * 10 ^ d : ℤ) : ℚ) := by
    push_cast
    ring
  rw [h1, halfEvenRound_intCast]
  push_cast
  have h10 : ((10 : ℚ) ^ d) ≠ 0 := by positivity
  field_simp

/-- A left fold accumulating `acc + f x` from zero computes the sum of the
mapped list. -/
theorem foldl_add_eq_map_sum {α : Type} (f : α → Nat) (l : List α) :
    l.foldl (fun acc x => acc + f x) 0 = (l.map f).sum := by
  rw [List.sum_eq_foldl, List.foldl_map]

/-- The overwriting `base_probability` computation of
`_calculate_history_cache_probability` equals the additive form (system role
replaces 0.3 by 0.8, i.e. adds 0.5). -/
theorem historyCacheProbability_additive (role content : String) (n : Nat) :
    historyCacheProbability role content n =
      min 1 ((3/10 : ℚ) + (if role == "system" then 5/10 else 0) +
        (if content.length < 100 then 2/10 else
          if content.length < 500 then 1/10 else 0) +
        (if hasRepetitivePatterns content then 2/10 else 0)) := by
  unfold historyCacheProbability
  split_ifs <;> norm_num

end LessLLM

open LessLLM

/-- C1: the claim says that with at least one recorded token,
`calculate_metrics` returns `total_latency_ms = last token timestamp −
request_start` in integer milliseconds.  Evaluating the code at a tracker
state with `request_start = 1000 s` and a single token recorded at `1001 s`
shows the code instead returns `int(token_timestamps[-1] * 1000) = 1001000`,
the absolute timestamp in milliseconds, while the claimed difference is
`1000`: the `* 1000` binds to the whole conditional expression, so the
`- request_start` subtraction is applied only on the no-token branch. -/
theorem C1_total_latency_is_absolute_timestamp :
    calculateMetrics ⟨some 1000, some 1001, [1001]⟩ 1002 1 =
      some ⟨some 1000, none, 1001000, none⟩ ∧
    (1001000 : ℤ) ≠ pyTrunc (((1001 : ℚ) - 1000) * 1000) := by
  constructor
  · simp only [calculateMetrics]
    norm_num [pyTrunc]
  · norm_num [pyTrunc]

/-- C2 counterexample: for an upstream 401 with body `"Unauthorized"`, the
failure log built by the `except` branch of `handle_regular_request` has
`success = false` and a populated `error_message`, but its `RawAPIData` keeps
the default `response_status_code = 200` and an empty `raw_response`: the
upstream status and error body are not captured, contrary to the claim. -/
theorem C2_error_log_drops_upstream_status :
    let log := regularRequestErrorLog [("model", "gpt-4")] "req_1" "openai"
      ⟨401, "Unauthorized"⟩
    log.success = false ∧
    log.error_message.isSome = true ∧
    log.raw_data.response_status_code = 200 ∧
    log.raw_data.response_status_code ≠ 401 ∧
    log.raw_data.raw_response = ([] : JsonObj) := by
  refine ⟨rfl, rfl, rfl, by decide, rfl⟩

/-- C2 amended: for every upstream non-2xx outcome the pipeline writes a
`CallLog` with `success = false` and a non-null `error_message`, but the
embedded `RawAPIData` holds only the original request together with an empty
`raw_response` and the default `response_status_code = 200`; the upstream
status and body are not recorded. -/
theorem C2_error_log_shape (requestData : JsonObj)
    (requestId providerName : String) (e : UpstreamHTTPError) :
    let log := regularRequestErrorLog requestData requestId providerName e
    log.success = false ∧
    log.error_message = some (upstreamErrorMessage e) ∧
    log.raw_data.raw_request = requestData ∧
    log.raw_data.raw_response = ([] : JsonObj) ∧
    log.raw_data.response_status_code = 200 ∧
    log.raw_data.upstream_status_code = none := by
  exact ⟨rfl, rfl, rfl, rfl, rfl, rfl⟩

/-- C4 counterexample: on an OpenAI request with the two system messages
`"A"` and `"B"`, `_convert_to_claude_format` keeps only the last one — the
resulting `system` string is `"B"` (length 1), so the first system message is
dropped rather than concatenated as the claim states. -/
theorem C4_last_system_message_wins :
    let r : OAIRequest :=
      ⟨"gpt-4", some 10, none, none,
        [⟨"system", "A"⟩, ⟨"system", "B"⟩, ⟨"user", "U"⟩]⟩
    (convertToClaudeFormat r).system = some "B" ∧
    ((convertToClaudeFormat r).system.getD "").length = 1 ∧
    (convertToClaudeFormat r).messages = [⟨"user", "U"⟩] := by
  refine ⟨rfl, rfl, by decide⟩

/-- C4 amended: `_convert_to_claude_format` copies every non-system message
unchanged and in order, and sets the top-level `system` string to the content
of the LAST system-role message alone (no concatenation), omitting the key
when that content is empty or no system message exists. -/
theorem C4_system_is_last_and_messages_preserved (r : OAIRequest) :
    (convertToClaudeFormat r).messages =
      r.messages.filter (fun m => ¬(m.role == "system")) ∧
    (convertToClaudeFormat r).system =
      match (r.messages.reverse.find? (fun m => m.role == "system")).map
          (fun m => m.content) with
      | some s => if s = "" then none else some s
      | none => none := by
  constructor
  · rfl
  · show (match r.messages.foldl
        (fun acc m => if m.role == "system" then some m.content else acc) none with
      | some s => if s = "" then none else some s
      | none => none) = _
    rw [foldl_overwrite_eq_find_reverse]
    cases r.messages.reverse.find? (fun m => m.role == "system") with
    | none => rfl
    | some m => rfl

/-- C5 counterexample: an Anthropic response with `stop_reason =
"max_tokens"` is normalized with `finish_reason = "max_tokens"`, not the
`"length"` the claimed mapping requires. -/
theorem C5_max_tokens_passes_through :
    ((normalizeResponse
        ⟨some "msg_1", some "claude-3-opus-20240229", some [⟨"Hello"⟩],
          some "max_tokens", none⟩).map
      (fun o => o.choices.map (fun c => c.finish_reason))) =
        some [some "max_tokens"] ∧
    ("max_tokens" : String) ≠ "length" := by
  refine ⟨rfl, by decide⟩

/-- C5 amended: for every Anthropic response carrying a `content` key,
`normalize_response` maps `stop_reason = "end_turn"` to `finish_reason =
"stop"` and passes every other `stop_reason` value (including `"max_tokens"`)
through unchanged. -/
theorem C5_finish_reason_mapping (r : ClaudeResponse) (blocks : List TextBlock)
    (h : r.content = some blocks) :
    (normalizeResponse r).map (fun o => o.choices.map (fun c => c.finish_reason)) =
      some [if r.stop_reason = some "end_turn" then some "stop"
            else r.stop_reason] := by
  simp [normalizeResponse, h]

/-- C5 witness: the amended mapping applied to a concrete `end_turn`
response. -/
theorem C5_finish_reason_mapping_witness :
    (normalizeResponse ⟨none, none, some [], some "end_turn", none⟩).map
        (fun o => o.choices.map (fun c => c.finish_reason)) =
      some [some "stop"] := by
  have h := C5_finish_reason_mapping
    ⟨none, none, some [], some "end_turn", none⟩ [] rfl
  simpa using h

/-- C3 counterexample: for the Anthropic-dialect request with system prompt
`"You are terse."` and single user message `"Hello"`, the non-streaming
conversion path hands the cache estimator a two-element message list headed
by the promoted system message — not the original one-element client list, so
the estimator does not run on the pre-translation messages. -/
theorem C3_estimator_gets_translated_messages :
    let r : ClaudeClientRequest :=
      ⟨some "gpt-4", some 10, none, none, some "You are terse.",
        [⟨"user", .str "Hello"⟩]⟩
    (handleClaudeToOpenaiTrace r).estimatorMessages =
      [⟨"system", "You are terse."⟩, ⟨"user", "Hello"⟩] ∧
    r.messages.length = 1 ∧
    (handleClaudeToOpenaiTrace r).estimatorMessages.length ≠ r.messages.length := by
  refine ⟨rfl, rfl, by decide⟩

/-- C3 amended: in the Anthropic-client-to-OpenAI-provider non-streaming
path, the cache estimator is invoked on the message list of the TRANSLATED
request — the per-message converted client messages with the system prompt
promoted to a leading `system`-role message — i.e. after request translation,
in the provider's dialect, not on the original list. -/
theorem C3_estimator_input_characterization (r : ClaudeClientRequest) :
    (handleClaudeToOpenaiTrace r).estimatorMessages =
      (convertClaudeToOpenai r).messages ∧
    (handleClaudeToOpenaiTrace r).estimatorMessages =
      (match r.system with
       | some s => ChatMsg.mk "system" s :: r.messages.filterMap convertClaudeMsg
       | none => r.messages.filterMap convertClaudeMsg) := by
  constructor
  · rfl
  · cases hs : r.system with
    | none => simp [handleClaudeToOpenaiTrace, convertClaudeToOpenai, hs]
    | some s => simp [handleClaudeToOpenaiTrace, convertClaudeToOpenai, hs]

/-- C7 counterexample: an OpenAI role-opener chunk whose delta carries
`content: ""` — a control-only frame in the claim's sense — is translated to
an Anthropic `content_block_delta` with `text: ""` rather than to a neutral
ping: empty text IS injected, because the translator tests key presence, not
text non-emptiness. -/
theorem C7_empty_content_injected :
    convertOpenaiStreamingToClaude
        ⟨[⟨some 0, some ⟨some "assistant", some ""⟩⟩]⟩ =
      ⟨some "content_block_delta", some 0, some ⟨some "text_delta", some ""⟩⟩ ∧
    (⟨some "content_block_delta", some 0, some ⟨some "text_delta", some ""⟩⟩ :
        ClaudeStreamChunk) ≠ pingChunk := by
  refine ⟨rfl, by decide⟩

/-- C7 amended: text presence is decided by presence of the `content` key
(OpenAI side) resp. a `text_delta`-typed delta (Anthropic side).  Chunks
carrying a text value — even the empty string — are translated to a chunk
carrying the identical value in the other dialect; all other chunks are
suppressed (Claude→OpenAI returns `None`) or become the neutral ping
(OpenAI→Claude). -/
theorem C7_chunk_translation_characterization :
    (∀ cc : ClaudeStreamChunk, ∀ t : String, claudeChunkText cc = some t →
      (convertClaudeStreamingToOpenai cc).bind oaiChunkText = some t) ∧
    (∀ cc : ClaudeStreamChunk, claudeChunkText cc = none →
      convertClaudeStreamingToOpenai cc = none) ∧
    (∀ oc : OAIStreamChunk, ∀ t : String, oaiChunkText oc = some t →
      claudeChunkText (convertOpenaiStreamingToClaude oc) = some t) ∧
    (∀ oc : OAIStreamChunk, oaiChunkText oc = none →
      convertOpenaiStreamingToClaude oc = pingChunk) := by
  refine ⟨?_, ?_, ?_, ?_⟩
  · rintro ⟨ty, ix, dl⟩ t h
    rcases dl with _ | d
    · simp [claudeChunkText] at h
    · by_cases hty : ty = some "content_block_delta"
      · by_cases hdt : d.type = some "text_delta"
        · simp only [claudeChunkText, hty, if_true, hdt, if_pos,
            Option.some.injEq] at h
          simp [convertClaudeStreamingToOpenai, hty, hdt, oaiChunkText, h]
        · simp [claudeChunkText, hty, hdt] at h
      · simp [claudeChunkText, hty] at h
  · rintro ⟨ty, ix, dl⟩ h
    rcases dl with _ | d
    · simp only [convertClaudeStreamingToOpenai]
      split <;> rfl
    · by_cases hty : ty = some "content_block_delta"
      · by_cases hdt : d.type = some "text_delta"
        · simp [claudeChunkText, hty, hdt] at h
        · simp [convertClaudeStreamingToOpenai, hty, hdt]
      · simp [convertClaudeStreamingToOpenai, hty]
  · rintro ⟨choices⟩ t h
    rcases choices with _ | ⟨⟨ix, dl⟩, rest⟩
    · simp [oaiChunkText] at h
    · rcases dl with _ | d
      · simp [oaiChunkText] at h
      · rcases hct : d.content with _ | v
        · simp [oaiChunkText, hct] at h
        · simp only [oaiChunkText, List.head?_cons, Option.some_bind, hct,
            Option.some.injEq] at h
          simp [convertOpenaiStreamingToClaude, claudeChunkText, hct, h]
  · rintro ⟨choices⟩ h
    rcases choices with _ | ⟨⟨ix, dl⟩, rest⟩
    · rfl
    · rcases dl with _ | d
      · rfl
      · rcases hct : d.content with _ | v
        · simp [convertOpenaiStreamingToClaude, hct]
        · simp [oaiChunkText, hct] at h

/-- C7 witness: the text-preservation direction applied to a concrete
`text_delta` chunk carrying `"Hi"`. -/
theorem C7_chunk_translation_witness :
    (convertClaudeStreamingToOpenai
        ⟨some "content_block_delta", some 0,
          some ⟨some "text_delta", some "Hi"⟩⟩).bind oaiChunkText =
      some "Hi" :=
  C7_chunk_translation_characterization.1
    ⟨some "content_block_delta", some 0, some ⟨some "text_delta", some "Hi"⟩⟩
    "Hi" rfl

/-- C9 counterexample: a successful log whose OpenAI-shape upstream usage
reports `prompt_tokens = 2`, `completion_tokens = 1`, `total_tokens = 100`
passes through `parse_raw_response` unvalidated, and `extract_key_fields`
copies the inconsistent total verbatim: `actual_total_tokens = 100 ≠ 2 + 1`,
refuting the claimed invariant. -/
theorem C9_total_tokens_copied_verbatim :
    extractKeyFields (openaiExtractUsage (some
      [("prompt_tokens", some 2), ("completion_tokens", some 1),
       ("total_tokens", some 100)])) = (some 2, some 1, some 100) ∧
    (100 : ℤ) ≠ 2 + 1 := by
  refine ⟨by decide, by decide⟩

/-- C9 amended: with Anthropic-shape usage (`input_tokens` present,
`prompt_tokens` absent) and both token counts present and nonzero,
`extract_key_fields` sets `actual_total_tokens` to their sum (a zero count
leaves the total null by Python truthiness); with OpenAI-shape usage the
total is copied verbatim from `total_tokens`, so the sum invariant holds only
when the upstream-reported total is itself consistent. -/
theorem C9_extraction_characterization :
    (∀ u : UsageDict, ∀ p c : ℤ,
      usageHas u "prompt_tokens" = false →
      usageGet u "input_tokens" = some p →
      usageGet u "output_tokens" = some c →
      p ≠ 0 → c ≠ 0 →
      extractKeyFields (some u) = (some p, some c, some (p + c))) ∧
    (∀ u : UsageDict, usageHas u "prompt_tokens" = true →
      (extractKeyFields (some u)).2.2 = usageGet u "total_tokens") := by
  constructor
  · intro u p c hp hin hout hpz hcz
    have hhas : usageHas u "input_tokens" = true := by
      unfold usageHas
      unfold usageGet at hin
      cases hl : u.lookup "input_tokens" with
      | none => rw [hl] at hin; exact absurd hin (by simp)
      | some v => simp
    unfold extractKeyFields
    dsimp only
    rw [if_neg (by simp [hp]), if_pos (by simp [hhas]), hin, hout]
    simp [hpz, hcz]
  · intro u hp
    unfold extractKeyFields
    dsimp only
    rw [if_pos (by simp [hp])]

/-- C9 witness: the Anthropic-shape branch applied to a concrete usage with
five input and seven output tokens. -/
theorem C9_extraction_witness :
    extractKeyFields (some [("input_tokens", some 5), ("output_tokens", some 7)]) =
      (some 5, some 7, some (5 + 7)) :=
  C9_extraction_characterization.1
    [("input_tokens", some 5), ("output_tokens", some 7)] 5 7
    (by decide) (by decide) (by decide) (by decide) (by decide)

/-- C8 counterexample: on the message list containing the single user message
`"Given the following code"`, `estimate_cache_tokens` raises rather than
returning a `CacheAnalysis`: the first matching template pattern
`Given the (following|above) (code|text|document)` has two capturing groups,
so `re.findall` yields tuples and `" ".join(matches)` raises `TypeError`. -/
theorem C8_template_analysis_crashes :
    estimateCacheTokens [] [⟨"user", .str "Given the following code"⟩] = none := by
  decide

/-- C8 amended: whenever `estimate_cache_tokens` does return a
`CacheAnalysis` (no message's first matching template pattern has two or more
capture groups), the cached and fresh token estimates sum to at most the
total token estimate of the message list, and the hit rate equals
`cached / (cached + fresh)` whenever that denominator is positive. -/
theorem C8_cache_algebra (seen : List String) (messages : List Msg)
    (ca : CacheAnalysis) (seenAfter : List String)
    (h : estimateCacheTokens seen messages = some (ca, seenAfter)) :
    ca.estimated_cached_tokens + ca.estimated_fresh_tokens ≤
      countMessagesTokens messages ∧
    (0 < ca.estimated_cached_tokens + ca.estimated_fresh_tokens →
      ca.estimated_cache_hit_rate =
        (ca.estimated_cached_tokens : ℚ) /
          ((ca.estimated_cached_tokens : ℚ) + (ca.estimated_fresh_tokens : ℚ))) := by
  unfold estimateCacheTokens at h
  by_cases hm : messages = []
  · rw [if_pos hm] at h
    simp only [Option.some.injEq, Prod.mk.injEq] at h
    obtain ⟨hca, -⟩ := h
    rw [← hca]
    exact ⟨by simp [CacheAnalysis.zero], by simp [CacheAnalysis.zero]⟩
  · rw [if_neg hm] at h
    cases htm : analyzeTemplates messages with
    | none => rw [htm] at h; exact absurd h (by simp)
    | some tmpl =>
        rw [htm] at h
        simp only [Option.some.injEq, Prod.mk.injEq] at h
        obtain ⟨hca, -⟩ := h
        rw [← hca]
        set total := countMessagesTokens messages with htotal
        set sys := (analyzeSystemMessages seen messages).1 with hsys
        set hist := analyzeConversationHistory messages with hhist
        have hmin : min total (sys + tmpl + hist) ≤ total := Nat.min_le_left _ _
        have hsum : min total (sys + tmpl + hist) +
            (total - min total (sys + tmpl + hist)) = total :=
          Nat.add_sub_cancel' hmin
        constructor
        · simp only
          omega
        · intro hpos
          simp only at hpos ⊢
          have htpos : 0 < total := by omega
          rw [if_pos htpos]
          have hcast : ((min total (sys + tmpl + hist) : ℕ) : ℚ) +
              ((total - min total (sys + tmpl + hist) : ℕ) : ℚ) = (total : ℚ) := by
            rw [← Nat.cast_add, hsum]
          rw [hcast]

/-- C8 witness: the amended algebra applied to a two-message list (for which
the template analysis returns normally). -/
theorem C8_cache_algebra_witness :
    (⟨0, 0, 0, 0, 0, 0⟩ : CacheAnalysis).estimated_cached_tokens +
        (⟨0, 0, 0, 0, 0, 0⟩ : CacheAnalysis).estimated_fresh_tokens ≤
      countMessagesTokens [⟨"user", .str ""⟩, ⟨"user", .str ""⟩] :=
  (C8_cache_algebra [] [⟨"user", .str ""⟩, ⟨"user", .str ""⟩]
    ⟨0, 0, 0, 0, 0, 0⟩ [] (by decide)).1

/-- C10 counterexample: for usage of one million prompt tokens on
`"claude-2.1"`, `OpenAIProvider.estimate_cost` returns 0 (the model is absent
from the provider's table) while `calculate_cost` prices it from
`MODEL_PRICING` at 8 USD — the two functions do not agree, and they do not
range over the same pricing entries. -/
theorem C10_claude_model_costs_disagree :
    openaiProviderEstimateCost
        [("prompt_tokens", some 1000000), ("completion_tokens", some 0)]
        "claude-2.1" = 0 ∧
    calculate_cost
        [("prompt_tokens", some 1000000), ("completion_tokens", some 0)]
        "claude-2.1" = 8 ∧
    (8 : ℚ) ≠ 0 := by
  refine ⟨by rfl, ?_, by norm_num⟩
  have hlk : MODEL_PRICING.lookup "claude-2.1" = some (8/1000, 24/1000) := by rfl
  unfold calculate_cost
  rw [hlk]
  dsimp only
  have h1 : usageGet
      [("prompt_tokens", some 1000000), ("completion_tokens", some 0)]
      "prompt_tokens" = some 1000000 := by rfl
  have h2 : usageGet
      [("prompt_tokens", some 1000000), ("completion_tokens", some 0)]
      "completion_tokens" = some 0 := by rfl
  have hcf : costFormula
      [("prompt_tokens", some 1000000), ("completion_tokens", some 0)]
      (8/1000, 24/1000) = 8 := by
    unfold costFormula
    rw [h1, h2]
    norm_num
  rw [hcf, show (8 : ℚ) = ((8 : ℤ) : ℚ) by norm_num, pyRoundTo_intCast]

/-- C10 amended: on every model outside the Claude-only block of
`MODEL_PRICING` (where the two tables carry identical entries, or none),
`calculate_cost` equals `OpenAIProvider.estimate_cost` rounded to six decimal
places — in particular both return 0 for models in neither table; the
functions genuinely diverge only on the five Claude models, which the
standalone table prices and the provider's table omits, and by the final
rounding step that only `calculate_cost` applies. -/
theorem C10_cost_table_refinement (usage : UsageDict) (model : String)
    (h : claudePricingEntries.lookup model = none) :
    calculate_cost usage model =
      pyRoundTo 6 (openaiProviderEstimateCost usage model) := by
  unfold calculate_cost openaiProviderEstimateCost MODEL_PRICING
  rw [lookup_append, h, Option.or_none]
  cases hx : openaiProviderPricing.lookup model with
  | none => simp [pyRoundTo_zero]
  | some pr => simp

/-- C10 witness: the refinement applied to `"gpt-4"` with a concrete usage. -/
theorem C10_cost_table_refinement_witness :
    calculate_cost
        [("prompt_tokens", some 1000), ("completion_tokens", some 2000)]
        "gpt-4" =
      pyRoundTo 6 (openaiProviderEstimateCost
        [("prompt_tokens", some 1000), ("completion_tokens", some 2000)]
        "gpt-4") :=
  C10_cost_table_refinement _ "gpt-4" (by rfl)

/-- C6 counterexample: the claim asserts the conversation-history formula
applies to every list with at least two messages; on the two-message list
whose first message is `"a b c d e f g h i j"` (10 tokens, probability
0.3 + 0.2 = 0.5, so a claimed contribution of 10 * 0.5 = 5) the code's
`len(messages) <= 2` guard returns 0 instead. -/
theorem C6_two_message_history_is_zero :
    analyzeConversationHistory
        [⟨"user", .str "a b c d e f g h i j"⟩, ⟨"user", .str "bye"⟩] = 0 ∧
    (countTokens "a b c d e f g h i j" : ℚ) *
        historyCacheProbability "user" "a b c d e f g h i j" 2 = 5 ∧
    (5 : ℚ) ≠ 0 := by
  refine ⟨by decide, ?_, by norm_num⟩
  have htok : countTokens "a b c d e f g h i j" = 10 := by decide
  have hrep : hasRepetitivePatterns "a b c d e f g h i j" = false := by decide
  have hrole : ("user" == "system") = false := by decide
  have hlen : ("a b c d e f g h i j" : String).length = 19 := by decide
  rw [htok]
  unfold historyCacheProbability
  rw [hrole, hrep, hlen]
  norm_num [min_def]

/-- C6 amended: the conversation-history bucket is 0 for lists of one or two
messages; for lists of three or more, every message but the last with string
content contributes `int(tokens(content) * p)` (floored to an integer), where
`p` is capped at 1.0 over base 0.3, +0.5 for the system role, +0.2 when the
content is shorter than 100 characters (else +0.1 when shorter than 500), and
+0.2 for repetitive content. -/
theorem C6_history_bucket_formula :
    (∀ messages : List Msg, messages.length ≤ 2 →
      analyzeConversationHistory messages = 0) ∧
    (∀ messages : List Msg, 3 ≤ messages.length →
      analyzeConversationHistory messages =
        (messages.dropLast.map (fun msg =>
          match msg.content with
          | .str s =>
              (pyTrunc ((countTokens s : ℚ) *
                min 1 ((3/10 : ℚ) + (if msg.role == "system" then 5/10 else 0) +
                  (if s.length < 100 then 2/10 else
                    if s.length < 500 then 1/10 else 0) +
                  (if hasRepetitivePatterns s then 2/10 else 0)))).toNat
          | _ => 0)).sum) := by
  constructor
  · intro messages h
    unfold analyzeConversationHistory
    rw [if_pos h]
  · intro messages h
    unfold analyzeConversationHistory
    rw [if_neg (by omega)]
    have hfun :
        (fun (acc : Nat) (msg : Msg) =>
          match msg.content with
          | .str s =>
              acc + (pyTrunc ((countTokens s : ℚ) *
                historyCacheProbability msg.role s messages.length)).toNat
          | _ => acc) =
        (fun (acc : Nat) (msg : Msg) => acc +
          match msg.content with
          | .str s =>
              (pyTrunc ((countTokens s : ℚ) *
                historyCacheProbability msg.role s messages.length)).toNat
          | _ => 0) := by
      funext acc msg
      cases msg.content <;> simp
    rw [hfun, foldl_add_eq_map_sum]
    have hfg :
        (fun (msg : Msg) =>
          match msg.content with
          | .str s =>
              (pyTrunc ((countTokens s : ℚ) *
                historyCacheProbability msg.role s messages.length)).toNat
          | _ => 0) =
        (fun (msg : Msg) =>
          match msg.content with
          | .str s =>
              (pyTrunc ((countTokens s : ℚ) *
                min 1 ((3/10 : ℚ) + (if msg.role == "system" then 5/10 else 0) +
                  (if s.length < 100 then 2/10 else
                    if s.length < 500 then 1/10 else 0) +
                  (if hasRepetitivePatterns s then 2/10 else 0)))).toNat
          | _ => 0) := by
      funext msg
      cases msg.content <;> simp [historyCacheProbability_additive]
    rw [hfg]

/-- C6 witness: the three-or-more branch applied to a concrete three-message
list; the first (system) message contributes `int(1 * 1.0) = 1`, the second
`int(1 * 0.5) = 0`. -/
theorem C6_history_bucket_formula_witness :
    3 ≤ ([⟨"system", .str "Sys"⟩, ⟨"user", .str "hello"⟩,
          ⟨"user", .str "bye"⟩] : List Msg).length ∧
    analyzeConversationHistory
        [⟨"system", .str "Sys"⟩, ⟨"user", .str "hello"⟩, ⟨"user", .str "bye"⟩] =
      (([⟨"system", .str "Sys"⟩, ⟨"user", .str "hello"⟩,
          ⟨"user", .str "bye"⟩] : List Msg).dropLast.map (fun msg =>
          match msg.content with
          | .str s =>
              (pyTrunc ((countTokens s : ℚ) *
                min 1 ((3/10 : ℚ) + (if msg.role == "system" then 5/10 else 0) +
                  (if s.length < 100 then 2/10 else
                    if s.length < 500 then 1/10 else 0) +
                  (if hasRepetitivePatterns s then 2/10 else 0)))).toNat
          | _ => 0)).sum :=
  ⟨by decide, C6_history_bucket_formula.2 _ (by decide)⟩
